import Mathlib

/-!
Verification of the acquisition-and-synchronization engine of the
industrial IoT OPC UA monitor (src/opcua_server.py).

The embedding models the three sensor read methods of `SensorReader`
(read_dht11, read_ina219, read_ultrasonic), the aggregate read and the
derived-value computation of `OPCUAServer.update_values`.

Modelling conventions:
- Python floats are modelled as rationals (the claims under study concern
  exact arithmetic identities, branch selection and status codes, none of
  which depend on binary rounding of IEEE doubles).
- A hardware device is modelled by an explicit outcome value describing
  what the device does during one read: the values it yields, or the
  exception class it raises.  The `SensorReader` state holds the three
  init-success flags set in `SensorReader.__init__` (`self.dht_sensor`,
  `self.ina219`, `self.ultrasonic_enabled`; a flag is `false` when init
  failed, i.e. the attribute is None / False in the source).
- The two busy-wait polling loops of `read_ultrasonic` are embedded as a
  fuel-indexed recursion over two sample streams: `echo n` is the result
  of the n-th `GPIO.input(ECHO_PIN)` call and `clock n` the result of the
  n-th `time.time()` call made by the read (call 0 is `timeout_start` at
  line 163).  Fuel exhaustion returns `none`; the real loop has no fuel,
  so termination claims are phrased as: beyond some finite fuel the
  result is a fixed `some` value.
- Status codes are the integer codes of the source: 0 = Ok,
  1 = ReadError (timeout), 2 = SensorUnavailable / sensor error,
  3 = OutOfRange.
-/

namespace IotMonitor

/-- Init-success flags recorded by `SensorReader.__init__`
(src/opcua_server.py lines 70-103). `dht_sensor = false` models
`self.dht_sensor = None`, `ina219 = false` models `self.ina219 = None`,
and `ultrasonic_enabled` is the boolean of line 100/103. -/
structure SensorReader where
  dht_sensor : Bool
  ina219 : Bool
  ultrasonic_enabled : Bool
deriving DecidableEq

/-- Behaviour of the DHT11 device during one read of the two properties
`self.dht_sensor.temperature` / `.humidity` (lines 114-115): either both
property accesses complete, each yielding an optional number (None is
modelled by `Option.none`), or a RuntimeError is raised (the expected
single-wire protocol timeout, line 122), or some other exception is
raised (line 125). -/
inductive DhtOutcome where
  | ok (temperature humidity : Option ℚ)
  | runtimeError
  | otherError
deriving DecidableEq

/-- Behaviour of the INA219 device during one read of `bus_voltage`,
`current`, `power` (lines 138-140): the three numbers in the units the
device reports (V, mA, mW), or an exception (line 144). -/
inductive InaOutcome where
  | ok (bus_voltage current power : ℚ)
  | raises
deriving DecidableEq

/-- Sample streams seen by `read_ultrasonic`: `echo n` is the n-th
`GPIO.input(ECHO_PIN)` result (`true` models reading 1, `false` reading
0), `clock n` the n-th `time.time()` result of the invocation. -/
structure UltraEnv where
  echo : ℕ → Bool
  clock : ℕ → ℚ

/-- Behaviour of the HC-SR04 hardware during one read: either the GPIO
calls proceed normally, sampling from an `UltraEnv`, or one of them
raises an exception (caught at line 188). -/
inductive UltraOutcome where
  | normal (env : UltraEnv)
  | raises

/-- Outcome of one embedded polling loop of `read_ultrasonic`:
`timedOut` models the `return 0.0, 1` inside the loop body, and
`exited nextEcho nextClock t` models falling through the loop condition
with `nextEcho`/`nextClock` the indices of the next GPIO / time.time
calls and `t` the final value of the accumulator variable
(`pulse_start` for the first loop, `pulse_end` for the second). -/
inductive WaitResult where
  | timedOut
  | exited (nextEcho nextClock : ℕ) (t : ℚ)
deriving DecidableEq

/-- Embeds both `while GPIO.input(ECHO_PIN) == L` loops of
`read_ultrasonic` (lines 166-169 with L = 0, i.e. `level = false`, and
lines 172-175 with L = 1, i.e. `level = true`).  Each iteration reads
echo sample `e`; while it equals `level` the body stores
`env.clock c` into the accumulator and returns status-1 timeout when
that time exceeds `tStart` by more than 0.1 s; otherwise the loop
exits keeping the last stored accumulator value `acc`. -/
def waitForLevel (env : UltraEnv) (level : Bool) (tStart : ℚ) :
    ℕ → ℕ → ℕ → ℚ → Option WaitResult
  | 0, _, _, _ => none
  | fuel+1, e, c, acc =>
    if env.echo e = level then
      if 1/10 < env.clock c - tStart then some WaitResult.timedOut
      else waitForLevel env level tStart fuel (e+1) (c+1) (env.clock c)
    else some (WaitResult.exited (e+1) c acc)

/-- Rounding to two decimal places, the model of Python `round(x, 2)`
at line 180.  Python rounds exact halves to even; the claims under
study never hit an exact tie, so round-half-up is used. -/
def roundTo2 (x : ℚ) : ℚ := ((x * 100 + 1/2).floor : ℚ) / 100

/-- Embeds `SensorReader.read_dht11` (lines 105-127).  Returns
(temperature_c, humidity, status_code). -/
def read_dht11 (r : SensorReader) (dev : DhtOutcome) : ℚ × ℚ × ℕ :=
  if r.dht_sensor = false then (0, 0, 2)
  else
    match dev with
    | DhtOutcome.ok (some temperature_c) (some humidity) =>
        (temperature_c, humidity, 0)
    | DhtOutcome.ok _ _ => (0, 0, 1)
    | DhtOutcome.runtimeError => (0, 0, 1)
    | DhtOutcome.otherError => (0, 0, 2)

/-- Embeds `SensorReader.read_ina219` (lines 129-146).  Returns
(voltage, current, power, status_code); current and power are divided
by 1000 (mA to A, mW to W, lines 139-140). -/
def read_ina219 (r : SensorReader) (dev : InaOutcome) : ℚ × ℚ × ℚ × ℕ :=
  if r.ina219 = false then (0, 0, 0, 2)
  else
    match dev with
    | InaOutcome.ok v c p => (v, c / 1000, p / 1000, 0)
    | InaOutcome.raises => (0, 0, 0, 2)

/-- Embeds `SensorReader.read_ultrasonic` (lines 148-190).  The trigger
pulse (lines 158-160) has no observable effect on the sample streams
and is not represented.  `timeout_start = time.time()` is clock call 0
(line 163) and `pulse_start` is initialised to it (line 164); the first
loop therefore starts at echo index 0, clock index 1, accumulator
`env.clock 0`.  Returns `some (distance_cm, status_code)`, or `none`
when the supplied fuel is smaller than the number of loop iterations
the sample streams make the source perform. -/
def read_ultrasonic (r : SensorReader) (dev : UltraOutcome) (fuel : ℕ) :
    Option (ℚ × ℕ) :=
  if r.ultrasonic_enabled = false then some (0, 2)
  else
    match dev with
    | UltraOutcome.raises => some (0, 2)
    | UltraOutcome.normal env =>
      match waitForLevel env false (env.clock 0) fuel 0 1 (env.clock 0) with
      | none => none
      | some WaitResult.timedOut => some (0, 1)
      | some (WaitResult.exited e c pulse_start) =>
        match waitForLevel env true pulse_start fuel e c pulse_start with
        | none => none
        | some WaitResult.timedOut => some (0, 1)
        | some (WaitResult.exited _ _ pulse_end) =>
          let pulse_duration := pulse_end - pulse_start
          let distance := roundTo2 (pulse_duration * 17150)
          if 2 ≤ distance ∧ distance ≤ 400 then some (distance, 0)
          else some (0, 3)

/-- One aggregate snapshot as assembled by `OPCUAServer.update_values`
(lines 300-309): the nine sensor fields unpacked at lines 301-303 plus
the wall-clock instant `takenAt` at which the aggregate read completed
(the time observed at lines 308-309). -/
structure Snapshot where
  temp_c : ℚ
  humidity : ℚ
  dht_status : ℕ
  voltage : ℚ
  current : ℚ
  power : ℚ
  ina_status : ℕ
  distance_cm : ℚ
  ultrasonic_status : ℕ
  takenAt : ℚ
deriving DecidableEq

/-- Embeds the aggregate read of `update_values` lines 300-303: the
three port reads, each driven only by its own device outcome.  `none`
only when the ultrasonic fuel is insufficient. -/
def readAll (r : SensorReader) (d : DhtOutcome) (i : InaOutcome)
    (u : UltraOutcome) (fuel : ℕ) (takenAt : ℚ) : Option Snapshot :=
  (read_ultrasonic r u fuel).map (fun du =>
    { temp_c := (read_dht11 r d).1
      humidity := (read_dht11 r d).2.1
      dht_status := (read_dht11 r d).2.2
      voltage := (read_ina219 r i).1
      current := (read_ina219 r i).2.1
      power := (read_ina219 r i).2.2.1
      ina_status := (read_ina219 r i).2.2.2
      distance_cm := du.1
      ultrasonic_status := du.2
      takenAt := takenAt })

/-- Derived presentation values computed by `update_values` lines
305-309.  `uptime = time.time() - start_time` and
`timestamp = datetime.now()` both observe the same wall-clock instant
as the snapshot (`takenAt`); the strftime rendering is an injective
pure formatting of that instant, modelled by the instant itself. -/
structure Derived where
  temp_f : ℚ
  distance_in : ℚ
  uptime : ℚ
  timestamp : ℚ
deriving DecidableEq

/-- Embeds the derived-value computation (lines 306-309):
`temp_f = temp_c * 9.0/5.0 + 32.0`, `distance_in = distance_cm / 2.54`,
`uptime = takenAt - start_time`, formatted timestamp of `takenAt`. -/
def compute_derived (s : Snapshot) (start_time : ℚ) : Derived :=
  { temp_f := s.temp_c * 9 / 5 + 32
    distance_in := s.distance_cm / (254/100)
    uptime := s.takenAt - start_time
    timestamp := s.takenAt }

/-- Reader whose three hardware init attempts all succeeded. -/
def allUp : SensorReader := ⟨true, true, true⟩

/-- Reader whose three hardware init attempts all failed. -/
def allDown : SensorReader := ⟨false, false, false⟩

/-- Simulated echo line that never rises, polled by a clock advancing
one second per call: the rising-edge wait times out at once. -/
def envNoEcho : UltraEnv := ⟨fun _ => false, fun n => (n : ℚ)⟩

/-- Simulated echo pulse of one clock step (10 ms): low at sample 0,
high at samples 1-2, low again from sample 3; clock advances 10 ms per
call, so the measured pulse lasts 0.01 s and spans 171.50 cm. -/
def envQuickEcho : UltraEnv :=
  ⟨fun n => n == 1 || n == 2, fun n => (n : ℚ) / 100⟩

/-- Echo line already high at the very first poll (samples 0-1 high,
low from sample 2), clock advancing 10 ms per call. -/
def envHighAtStart : UltraEnv :=
  ⟨fun n => n == 0 || n == 1, fun n => (n : ℚ) / 100⟩

end IotMonitor

namespace IotMonitor

/-- C1 counterexample input: the DHT11 initialised fine, then its read
raises an exception that is not a RuntimeError; lines 125-127 return
status code 2, not the claimed code 1. -/
theorem dht11_unexpected_error_is_code2 :
    (read_dht11 allUp DhtOutcome.otherError).2.2 = 2 ∧
    (read_dht11 allUp DhtOutcome.otherError).2.2 ≠ 1 := by
  constructor <;> decide

/-- C1 (amended): on an initialised port, an unexpected failure raised
during read() is mapped to status code 2 (the SensorUnavailable code)
by the generic exception handlers of read_dht11, read_ina219 and
read_ultrasonic; only the expected DHT11 protocol timeout
(RuntimeError), a partial DHT11 frame, and the ultrasonic echo-poll
timeouts map to ReadError (code 1). -/
theorem unexpected_error_status (r : SensorReader) :
    (r.dht_sensor = true →
      read_dht11 r DhtOutcome.otherError = (0, 0, 2) ∧
      read_dht11 r DhtOutcome.runtimeError = (0, 0, 1)) ∧
    (r.ina219 = true →
      read_ina219 r InaOutcome.raises = (0, 0, 0, 2)) ∧
    (r.ultrasonic_enabled = true →
      ∀ fuel, read_ultrasonic r UltraOutcome.raises fuel = some (0, 2)) := by
  refine ⟨fun h => ?_, fun h => ?_, fun h => ?_⟩
  · simp [read_dht11, h]
  · simp [read_ina219, h]
  · intro fuel
    simp [read_ultrasonic, h]

/-- C1 amended-claim witness at the fully initialised reader. -/
theorem unexpected_error_status_witness :
    read_dht11 allUp DhtOutcome.otherError = (0, 0, 2) ∧
    read_ina219 allUp InaOutcome.raises = (0, 0, 0, 2) ∧
    read_ultrasonic allUp UltraOutcome.raises 5 = some (0, 2) :=
  ⟨((unexpected_error_status allUp).1 rfl).1,
   (unexpected_error_status allUp).2.1 rfl,
   (unexpected_error_status allUp).2.2 rfl 5⟩

/-- C4: when the hardware init of a port failed at engine start, every call
of its read returns the zero reading with status 2, whatever the
device would have done (quantifying over every device outcome models
that the device is never touched); the reads are pure functions of the
init flags, which they never modify, so the code never re-attempts
hardware init. -/
theorem unavailable_port_always_code2 (r : SensorReader) :
    (r.dht_sensor = false → ∀ d, read_dht11 r d = (0, 0, 2)) ∧
    (r.ina219 = false → ∀ i, read_ina219 r i = (0, 0, 0, 2)) ∧
    (r.ultrasonic_enabled = false →
      ∀ u fuel, read_ultrasonic r u fuel = some (0, 2)) := by
  refine ⟨fun h d => ?_, fun h i => ?_, fun h u fuel => ?_⟩
  · simp [read_dht11, h]
  · simp [read_ina219, h]
  · simp [read_ultrasonic, h]

/-- C4 witness: the all-failed reader answers code 2 on each port for
two different device behaviours per port. -/
theorem unavailable_port_always_code2_witness :
    read_dht11 allDown (DhtOutcome.ok (some 21) (some 40)) = (0, 0, 2) ∧
    read_dht11 allDown DhtOutcome.runtimeError = (0, 0, 2) ∧
    read_ina219 allDown (InaOutcome.ok 5 120 600) = (0, 0, 0, 2) ∧
    read_ina219 allDown InaOutcome.raises = (0, 0, 0, 2) ∧
    read_ultrasonic allDown UltraOutcome.raises 3 = some (0, 2) :=
  ⟨(unavailable_port_always_code2 allDown).1 rfl _,
   (unavailable_port_always_code2 allDown).1 rfl _,
   (unavailable_port_always_code2 allDown).2.1 rfl _,
   (unavailable_port_always_code2 allDown).2.1 rfl _,
   (unavailable_port_always_code2 allDown).2.2 rfl _ 3⟩

/-- C9: on an initialised power monitor, read_ina219 accepts whatever
triple the device reports, divides current and power by 1000 and
returns status Ok, with no range or sign validation. -/
theorem ina219_milli_conversion (r : SensorReader) (v c p : ℚ)
    (h : r.ina219 = true) :
    read_ina219 r (InaOutcome.ok v c p) = (v, c / 1000, p / 1000, 0) := by
  simp [read_ina219, h]

/-- C9 witness: a negative current and an out-of-band power are passed
through unvalidated, scaled by 1000. -/
theorem ina219_milli_conversion_witness :
    read_ina219 allUp (InaOutcome.ok 5 (-2500) 12000) =
      (5, -5/2, 12, 0) := by
  have h := ina219_milli_conversion allUp 5 (-2500) 12000 rfl
  rw [h]
  norm_num

/-- C7: for every snapshot, also those with non-Ok statuses and zero
payloads, the derived values satisfy temp_f = temp_c * 9/5 + 32 and
distance_in = distance_cm / 2.54; in particular 100 C maps to 212 F
and 254 cm maps to 100 inches, exactly in the rational model. -/
theorem derived_value_formulas (s : Snapshot) (start_time : ℚ) :
    (compute_derived s start_time).temp_f = s.temp_c * 9 / 5 + 32 ∧
    (compute_derived s start_time).distance_in = s.distance_cm / (254/100) ∧
    (s.temp_c = 100 → (compute_derived s start_time).temp_f = 212) ∧
    (s.distance_cm = 254 →
      (compute_derived s start_time).distance_in = 100) := by
  refine ⟨rfl, rfl, fun h => ?_, fun h => ?_⟩
  · norm_num [compute_derived, h]
  · norm_num [compute_derived, h]

/-- C7 witness at a snapshot with a non-Ok thermal status, temp 100 C
and distance 254 cm. -/
theorem derived_value_formulas_witness :
    (compute_derived
      ⟨100, 0, 1, 0, 0, 0, 2, 254, 3, 50⟩ 10).temp_f = 212 ∧
    (compute_derived
      ⟨100, 0, 1, 0, 0, 0, 2, 254, 3, 50⟩ 10).distance_in = 100 :=
  ⟨(derived_value_formulas ⟨100, 0, 1, 0, 0, 0, 2, 254, 3, 50⟩ 10).2.2.1 rfl,
   (derived_value_formulas ⟨100, 0, 1, 0, 0, 0, 2, 254, 3, 50⟩ 10).2.2.2 rfl⟩

/-- C8: the derived-value computation is a pure function of the
snapshot (readings, statuses and takenAt) and the fixed process start
time: two applications on equal inputs agree in every field, including
uptime and the formatted timestamp. -/
theorem derived_value_pure (s1 s2 : Snapshot) (t1 t2 : ℚ)
    (hs : s1 = s2) (ht : t1 = t2) :
    (compute_derived s1 t1).temp_f = (compute_derived s2 t2).temp_f ∧
    (compute_derived s1 t1).distance_in = (compute_derived s2 t2).distance_in ∧
    (compute_derived s1 t1).uptime = (compute_derived s2 t2).uptime ∧
    (compute_derived s1 t1).timestamp = (compute_derived s2 t2).timestamp := by
  subst hs
  subst ht
  exact ⟨rfl, rfl, rfl, rfl⟩

/-- C8 witness at one concrete snapshot. -/
theorem derived_value_pure_witness :
    (compute_derived ⟨21, 40, 0, 5, 1, 5, 0, 150, 0, 7⟩ 2).uptime =
      (compute_derived ⟨21, 40, 0, 5, 1, 5, 0, 150, 0, 7⟩ 2).uptime :=
  (derived_value_pure ⟨21, 40, 0, 5, 1, 5, 0, 150, 0, 7⟩
    ⟨21, 40, 0, 5, 1, 5, 0, 150, 0, 7⟩ 2 2 rfl rfl).2.2.1

/-- C6: on every return path of the three reads, a non-Ok status comes
with an all-zero payload; a non-zero payload can only accompany status
code 0. -/
theorem nonok_status_zero_payload (r : SensorReader) (d : DhtOutcome)
    (i : InaOutcome) (u : UltraOutcome) (fuel : ℕ) :
    ((read_dht11 r d).2.2 ≠ 0 →
      (read_dht11 r d).1 = 0 ∧ (read_dht11 r d).2.1 = 0) ∧
    ((read_ina219 r i).2.2.2 ≠ 0 →
      (read_ina219 r i).1 = 0 ∧ (read_ina219 r i).2.1 = 0 ∧
      (read_ina219 r i).2.2.1 = 0) ∧
    (∀ q st, read_ultrasonic r u fuel = some (q, st) → st ≠ 0 → q = 0) := by
  refine ⟨?_, ?_, ?_⟩
  · cases hb : r.dht_sensor
    · simp [read_dht11, hb]
    · cases d with
      | ok t h => cases t <;> cases h <;> simp [read_dht11, hb]
      | runtimeError => simp [read_dht11, hb]
      | otherError => simp [read_dht11, hb]
  · cases hb : r.ina219
    · simp [read_ina219, hb]
    · cases i <;> simp [read_ina219, hb]
  · intro q st hread hst
    cases u with
    | raises =>
      cases hb : r.ultrasonic_enabled <;>
        simp_all [read_ultrasonic, hb]
    | normal env =>
      cases hb : r.ultrasonic_enabled
      · simp_all [read_ultrasonic, hb]
      · simp only [read_ultrasonic, hb] at hread
        rw [if_neg (by simp)] at hread
        cases h1 : waitForLevel env false (env.clock 0) fuel 0 1 (env.clock 0) with
        | none => rw [h1] at hread; cases hread
        | some w =>
          rw [h1] at hread
          cases w with
          | timedOut => simp_all
          | exited e c ps =>
            simp only [] at hread
            cases h2 : waitForLevel env true ps fuel e c ps with
            | none => rw [h2] at hread; cases hread
            | some w2 =>
              rw [h2] at hread
              cases w2 with
              | timedOut => simp_all
              | exited e2 c2 pe =>
                simp only [] at hread
                split at hread <;> simp_all

/-- C6 witness: a DHT11 protocol timeout on an initialised reader has
status 1 and a zeroed payload. -/
theorem nonok_status_zero_payload_witness :
    (read_dht11 allUp DhtOutcome.runtimeError).1 = 0 ∧
    (read_dht11 allUp DhtOutcome.runtimeError).2.1 = 0 :=
  (nonok_status_zero_payload allUp DhtOutcome.runtimeError
    InaOutcome.raises UltraOutcome.raises 1).1 (by decide)

/-- C5: the aggregate read of update_values calls the three port reads
independently: two runs differing only in the behaviour of one port
(its device outcome, and for ranging also the loop fuel) return
identical readings and statuses for the two other ports. -/
theorem readAll_no_cross_interference :
    (∀ r d i u fuel u2 fuel2 t s s2,
      readAll r d i u fuel t = some s → readAll r d i u2 fuel2 t = some s2 →
      s.temp_c = s2.temp_c ∧ s.humidity = s2.humidity ∧
      s.dht_status = s2.dht_status ∧ s.voltage = s2.voltage ∧
      s.current = s2.current ∧ s.power = s2.power ∧
      s.ina_status = s2.ina_status) ∧
    (∀ r d d2 i u fuel t s s2,
      readAll r d i u fuel t = some s → readAll r d2 i u fuel t = some s2 →
      s.voltage = s2.voltage ∧ s.current = s2.current ∧
      s.power = s2.power ∧ s.ina_status = s2.ina_status ∧
      s.distance_cm = s2.distance_cm ∧
      s.ultrasonic_status = s2.ultrasonic_status) ∧
    (∀ r d i i2 u fuel t s s2,
      readAll r d i u fuel t = some s → readAll r d i2 u fuel t = some s2 →
      s.temp_c = s2.temp_c ∧ s.humidity = s2.humidity ∧
      s.dht_status = s2.dht_status ∧ s.distance_cm = s2.distance_cm ∧
      s.ultrasonic_status = s2.ultrasonic_status) := by
  refine ⟨?_, ?_, ?_⟩
  · intro r d i u fuel u2 fuel2 t s s2 h1 h2
    unfold readAll at h1 h2
    cases hu : read_ultrasonic r u fuel with
    | none => rw [hu] at h1; cases h1
    | some du =>
      rw [hu, Option.map_some'] at h1
      cases hu2 : read_ultrasonic r u2 fuel2 with
      | none => rw [hu2] at h2; cases h2
      | some du2 =>
        rw [hu2, Option.map_some'] at h2
        injection h1 with h1
        injection h2 with h2
        subst h1
        subst h2
        exact ⟨rfl, rfl, rfl, rfl, rfl, rfl, rfl⟩
  · intro r d d2 i u fuel t s s2 h1 h2
    unfold readAll at h1 h2
    cases hu : read_ultrasonic r u fuel with
    | none => rw [hu] at h1; cases h1
    | some du =>
      rw [hu, Option.map_some'] at h1 h2
      injection h1 with h1
      injection h2 with h2
      subst h1
      subst h2
      exact ⟨rfl, rfl, rfl, rfl, rfl, rfl⟩
  · intro r d i i2 u fuel t s s2 h1 h2
    unfold readAll at h1 h2
    cases hu : read_ultrasonic r u fuel with
    | none => rw [hu] at h1; cases h1
    | some du =>
      rw [hu, Option.map_some'] at h1 h2
      injection h1 with h1
      injection h2 with h2
      subst h1
      subst h2
      exact ⟨rfl, rfl, rfl, rfl, rfl⟩

unseal Rat.mul Rat.inv Rat.add Rat.sub in
/-- C5 witness realising the spec example: a ranging timeout in one
run and a successful echo in the other leave the DHT11 and INA219
fields of the snapshot untouched (statuses Ok, Ok, ReadError in the
timeout run). -/
theorem readAll_no_cross_interference_witness :
    let s : Snapshot := ⟨21, 40, 0, 5, 3/25, 3/5, 0, 0, 1, 0⟩
    let s2 : Snapshot := ⟨21, 40, 0, 5, 3/25, 3/5, 0, 343/2, 0, 0⟩
    s.temp_c = s2.temp_c ∧ s.humidity = s2.humidity ∧
    s.dht_status = s2.dht_status ∧ s.voltage = s2.voltage ∧
    s.current = s2.current ∧ s.power = s2.power ∧
    s.ina_status = s2.ina_status :=
  readAll_no_cross_interference.1 allUp
    (DhtOutcome.ok (some 21) (some 40)) (InaOutcome.ok 5 120 600)
    (UltraOutcome.normal envNoEcho) 1
    (UltraOutcome.normal envQuickEcho) 5 0 _ _ (by decide) (by decide)

/-- Helper: a polling loop whose continue condition keeps holding
returns the status-1 timeout as soon as one of the clock samples it
can reach with the given fuel exceeds the 0.1 s budget. -/
theorem waitForLevel_timedOut (env : UltraEnv) (level : Bool) (tStart : ℚ) :
    ∀ (f e c : ℕ) (acc : ℚ),
      (∀ i, env.echo (e + i) = level) →
      (∃ i, i < f ∧ 1/10 < env.clock (c + i) - tStart) →
      waitForLevel env level tStart f e c acc = some WaitResult.timedOut := by
  intro f
  induction f with
  | zero =>
    intro e c acc _ h
    obtain ⟨i, hi, _⟩ := h
    omega
  | succ f ih =>
    intro e c acc hecho h
    obtain ⟨i, hif, hgt⟩ := h
    rw [waitForLevel, if_pos (by simpa using hecho 0)]
    by_cases hc : 1/10 < env.clock c - tStart
    · rw [if_pos hc]
    · rw [if_neg hc]
      apply ih
      · intro j
        have hj := hecho (j + 1)
        rw [show e + 1 + j = e + (j + 1) by omega]
        exact hj
      · match i with
        | 0 =>
          exact absurd (by simpa using hgt) hc
        | Nat.succ i2 =>
          refine ⟨i2, by omega, ?_⟩
          rw [show c + 1 + i2 = c + (i2 + 1) by omega]
          exact hgt

/-- Helper: a polling loop that meets the complementary level at
relative sample n, having seen neither that level nor a timeout
before, exits there; on entry the accumulator holds the clock sample
preceding the current clock index, and on exit it holds the last
clock sample written by the loop body (the entry value when n = 0). -/
theorem waitForLevel_exited (env : UltraEnv) (level : Bool) (tStart : ℚ) :
    ∀ (n f e c : ℕ),
      env.echo (e + n) ≠ level →
      (∀ i, i < n → env.echo (e + i) = level) →
      (∀ i, i < n → ¬(1/10 < env.clock (c + i) - tStart)) →
      n < f → 1 ≤ c →
      waitForLevel env level tStart f e c (env.clock (c - 1)) =
        some (WaitResult.exited (e + n + 1) (c + n) (env.clock (c + n - 1))) := by
  intro n
  induction n with
  | zero =>
    intro f e c hne _ _ hf hc
    obtain ⟨g, rfl⟩ : ∃ g, f = g + 1 := ⟨f - 1, by omega⟩
    rw [waitForLevel, if_neg (by simpa using hne)]
    simp
  | succ n ih =>
    intro f e c hne hecho htime hf hc
    obtain ⟨g, rfl⟩ : ∃ g, f = g + 1 := ⟨f - 1, by omega⟩
    rw [waitForLevel, if_pos (by simpa using hecho 0 (by omega)),
      if_neg (by simpa using htime 0 (by omega))]
    have hacc : env.clock c = env.clock (c + 1 - 1) := by norm_num
    rw [hacc]
    have hrec := ih g (e + 1) (c + 1)
      (by rw [show e + 1 + n = e + (n + 1) by omega]; exact hne)
      (fun i hi => by
        rw [show e + 1 + i = e + (i + 1) by omega]
        exact hecho (i + 1) (by omega))
      (fun i hi => by
        rw [show c + 1 + i = c + (i + 1) by omega]
        exact htime (i + 1) (by omega))
      (by omega) (by omega)
    rw [hrec]
    rw [show e + 1 + n + 1 = e + (n + 1) + 1 by omega,
      show c + 1 + n = c + (n + 1) by omega]

/-- Helper: read_ultrasonic returns (0, 1) when the rising-edge wait
times out. -/
theorem read_ultrasonic_timeout1 (r : SensorReader) (env : UltraEnv)
    (fuel : ℕ) (hen : r.ultrasonic_enabled = true)
    (h1 : waitForLevel env false (env.clock 0) fuel 0 1 (env.clock 0) =
      some WaitResult.timedOut) :
    read_ultrasonic r (UltraOutcome.normal env) fuel = some (0, 1) := by
  simp only [read_ultrasonic, hen]
  rw [if_neg (by simp)]
  simp only [h1]

/-- Helper: read_ultrasonic returns (0, 1) when the rising-edge wait
exits and the falling-edge wait times out. -/
theorem read_ultrasonic_timeout2 (r : SensorReader) (env : UltraEnv)
    (fuel e c : ℕ) (ps : ℚ) (hen : r.ultrasonic_enabled = true)
    (h1 : waitForLevel env false (env.clock 0) fuel 0 1 (env.clock 0) =
      some (WaitResult.exited e c ps))
    (h2 : waitForLevel env true ps fuel e c ps = some WaitResult.timedOut) :
    read_ultrasonic r (UltraOutcome.normal env) fuel = some (0, 1) := by
  simp only [read_ultrasonic, hen]
  rw [if_neg (by simp)]
  simp only [h1, h2]

/-- Helper: when both waits exit normally with recorded timestamps ps
and pe, read_ultrasonic returns the range-checked rounded distance
computed from pe - ps. -/
theorem read_ultrasonic_exit_exit (r : SensorReader) (env : UltraEnv)
    (fuel e c e2 c2 : ℕ) (ps pe : ℚ)
    (hen : r.ultrasonic_enabled = true)
    (h1 : waitForLevel env false (env.clock 0) fuel 0 1 (env.clock 0) =
      some (WaitResult.exited e c ps))
    (h2 : waitForLevel env true ps fuel e c ps =
      some (WaitResult.exited e2 c2 pe)) :
    read_ultrasonic r (UltraOutcome.normal env) fuel =
      (if 2 ≤ roundTo2 ((pe - ps) * 17150) ∧
          roundTo2 ((pe - ps) * 17150) ≤ 400
       then some (roundTo2 ((pe - ps) * 17150), 0)
       else some (0, 3)) := by
  simp only [read_ultrasonic, hen]
  rw [if_neg (by simp)]
  simp only [h1, h2]

/-- C2: in every invocation of read_ultrasonic in which both echo
edges are observed within their timeouts (both polling loops exit
with recorded timestamps pulse_start and pulse_end), the returned
distance is roundTo2 of (pulse_end - pulse_start) * 17150; when that
value lies in [2, 400] the result is (distance, 0 = Ok), otherwise
(0, 3 = OutOfRange). -/
theorem ranging_distance_formula (r : SensorReader) (env : UltraEnv)
    (fuel e c e2 c2 : ℕ) (pulse_start pulse_end : ℚ)
    (hen : r.ultrasonic_enabled = true)
    (h1 : waitForLevel env false (env.clock 0) fuel 0 1 (env.clock 0) =
      some (WaitResult.exited e c pulse_start))
    (h2 : waitForLevel env true pulse_start fuel e c pulse_start =
      some (WaitResult.exited e2 c2 pulse_end)) :
    read_ultrasonic r (UltraOutcome.normal env) fuel =
      (if 2 ≤ roundTo2 ((pulse_end - pulse_start) * 17150) ∧
          roundTo2 ((pulse_end - pulse_start) * 17150) ≤ 400
       then some (roundTo2 ((pulse_end - pulse_start) * 17150), 0)
       else some (0, 3)) :=
  read_ultrasonic_exit_exit r env fuel e c e2 c2 pulse_start pulse_end
    hen h1 h2

unseal Rat.mul Rat.inv Rat.add Rat.sub in
/-- C2 witness: a 10 ms echo pulse (rising edge recorded at 0.01 s,
falling edge at 0.02 s) measures exactly 171.50 cm with status Ok. -/
theorem ranging_distance_formula_witness :
    read_ultrasonic allUp (UltraOutcome.normal envQuickEcho) 5 =
      some (343/2, 0) := by
  have h := ranging_distance_formula allUp envQuickEcho 5 2 2 4 3
    (1/100) (2/100) rfl (by decide) (by decide)
  rw [h]
  decide

/-- C10: when the echo line already reads high at the very first poll
of the rising-edge wait, the loop exits without executing its body,
leaving pulse_start at its initial value timeout_start (clock call 0,
the polling start); the read then measures the pulse from that
default, pulse_end - clock 0, not from an observed low-to-high
transition. -/
theorem ranging_first_poll_high (r : SensorReader) (env : UltraEnv)
    (fuel : ℕ) (hen : r.ultrasonic_enabled = true)
    (h0 : env.echo 0 = true) :
    waitForLevel env false (env.clock 0) (fuel + 1) 0 1 (env.clock 0) =
      some (WaitResult.exited 1 1 (env.clock 0)) ∧
    ∀ e c pulse_end,
      waitForLevel env true (env.clock 0) (fuel + 1) 1 1 (env.clock 0) =
        some (WaitResult.exited e c pulse_end) →
      read_ultrasonic r (UltraOutcome.normal env) (fuel + 1) =
        (if 2 ≤ roundTo2 ((pulse_end - env.clock 0) * 17150) ∧
            roundTo2 ((pulse_end - env.clock 0) * 17150) ≤ 400
         then some (roundTo2 ((pulse_end - env.clock 0) * 17150), 0)
         else some (0, 3)) := by
  have hexit : waitForLevel env false (env.clock 0) (fuel + 1) 0 1
      (env.clock 0) = some (WaitResult.exited 1 1 (env.clock 0)) := by
    rw [waitForLevel, if_neg (by simp [h0])]
  exact ⟨hexit, fun e c pulse_end h2 =>
    read_ultrasonic_exit_exit r env (fuel + 1) 1 1 e c (env.clock 0)
      pulse_end hen hexit h2⟩

unseal Rat.mul Rat.inv Rat.add Rat.sub in
/-- C10 witness: echo high from the very first sample, falling at
sample 2: the rising-edge loop body never runs, pulse_start stays at
the polling start time 0, and the measured distance uses
pulse_end - 0 = 0.01 s, giving 171.50 cm. -/
theorem ranging_first_poll_high_witness :
    waitForLevel envHighAtStart false (envHighAtStart.clock 0) 5 0 1
        (envHighAtStart.clock 0) =
      some (WaitResult.exited 1 1 (envHighAtStart.clock 0)) ∧
    read_ultrasonic allUp (UltraOutcome.normal envHighAtStart) 5 =
      some (343/2, 0) := by
  have h := ranging_first_poll_high allUp envHighAtStart 4 rfl (by decide)
  refine ⟨h.1, ?_⟩
  have h2 := h.2 3 2 (envHighAtStart.clock 1) (by decide)
  rw [h2]
  decide

/-- C3: the edge-detection polls of read_ultrasonic never run
indefinitely.  With a monotone, unbounded clock: (a) if the echo line
never rises during the read, then beyond some finite fuel the read
returns (0, 1 = ReadError), the rising-edge wait having timed out
100 ms after polling started; (b) if the echo line rises at sample m
(no prior rise, no prior timeout) and then never falls, then beyond
some finite fuel the read returns (0, 1), the falling-edge wait
having timed out 100 ms after the recorded rising-edge timestamp. -/
theorem ranging_polls_terminate (r : SensorReader) (env : UltraEnv)
    (hen : r.ultrasonic_enabled = true)
    (hmono : Monotone env.clock)
    (hub : ∀ B : ℚ, ∃ n, B < env.clock n) :
    ((∀ k, env.echo k = false) →
      ∃ fuel, ∀ f, fuel ≤ f →
        read_ultrasonic r (UltraOutcome.normal env) f = some (0, 1)) ∧
    (∀ m, (∀ k, k < m → env.echo k = false ∧
            env.clock (k + 1) - env.clock 0 ≤ 1/10) →
      (∀ k, m ≤ k → env.echo k = true) →
      ∃ fuel, ∀ f, fuel ≤ f →
        read_ultrasonic r (UltraOutcome.normal env) f = some (0, 1)) := by
  constructor
  · intro hlow
    obtain ⟨n, hn⟩ := hub (env.clock 0 + 1/10)
    have hn1 : 1 ≤ n := by
      rcases Nat.eq_zero_or_pos n with rfl | hpos
      · linarith
      · exact hpos
    refine ⟨n, fun f hf => ?_⟩
    apply read_ultrasonic_timeout1 r env f hen
    apply waitForLevel_timedOut
    · intro i
      rw [Nat.zero_add]
      exact hlow i
    · refine ⟨n - 1, by omega, ?_⟩
      rw [show 1 + (n - 1) = n by omega]
      linarith
  · intro m hpre hpost
    obtain ⟨n2, hn2⟩ := hub (env.clock m + 1/10)
    have hm1 : m + 1 ≤ n2 := by
      by_contra hcon
      push_neg at hcon
      have hle := hmono (show n2 ≤ m by omega)
      linarith
    refine ⟨n2 + m + 1, fun f hf => ?_⟩
    have h1 := waitForLevel_exited env false (env.clock 0) m f 0 1
      (by rw [Nat.zero_add, hpost m le_rfl]; simp)
      (fun i hi => by rw [Nat.zero_add]; exact (hpre i hi).1)
      (fun i hi => by
        have hti := (hpre i hi).2
        rw [show 1 + i = i + 1 by omega]
        linarith)
      (by omega) (by omega)
    rw [show (0:ℕ) + m + 1 = m + 1 by omega, show 1 + m = m + 1 by omega,
      show m + 1 - 1 = m by omega] at h1
    apply read_ultrasonic_timeout2 r env f (m + 1) (m + 1) (env.clock m)
      hen h1
    apply waitForLevel_timedOut
    · intro i
      exact hpost (m + 1 + i) (by omega)
    · refine ⟨n2 - (m + 1), by omega, ?_⟩
      rw [show m + 1 + (n2 - (m + 1)) = n2 by omega]
      linarith

/-- C3 witness: with an echo line that never rises and a clock
advancing one second per call, the read times out and returns (0, 1)
for every sufficient fuel. -/
theorem ranging_polls_terminate_witness :
    ∃ fuel, ∀ f, fuel ≤ f →
      read_ultrasonic allUp (UltraOutcome.normal envNoEcho) f =
        some (0, 1) :=
  (ranging_polls_terminate allUp envNoEcho rfl
    (by
      intro a b hab
      simp only [envNoEcho]
      exact_mod_cast hab)
    (fun B => by
      obtain ⟨n, hn⟩ := exists_nat_gt B
      exact ⟨n, by simp only [envNoEcho]; exact_mod_cast hn⟩)).1
    (fun k => rfl)

end IotMonitor
